import Mathlib

/-!
Verification development for the Orion-Data extraction engine.

The JavaScript sources are embedded shallowly:

* string predicates mirror the JavaScript String methods used by the code
  (includes, endsWith, toLowerCase, trim, substring) on ASCII input;
* the candidate scorer evaluateButton of the deep-dive hunter and its
  selection loop are pure Lean functions over a structural description of
  a DOM element;
* the scan loop, click bookkeeping and filesystem checks of the basic
  hunter are modelled as explicit state passing;
* the network response sniffers, the native downloaders and the
  submission relay request handler are step functions over plain data.
-/

/-- JavaScript string truthiness fallback: the expression a or-else b. -/
def jsOr (a b : String) : String := if a = "" then b else a

/-- Whitespace test matching the JavaScript regex class backslash-s on ASCII input. -/
def isWs (c : Char) : Bool :=
  c == ' ' || c == '\t' || c == '\n' || c == '\r' || c == '\x0b' || c == '\x0c'

/-- Does the first list start with the second one. -/
def leadsWith : List Char → List Char → Bool
  | _, [] => true
  | [], _ :: _ => false
  | c :: cs, p :: ps => c == p && leadsWith cs ps

/-- Substring containment on character lists, as JavaScript String.includes. -/
def containsL : List Char → List Char → Bool
  | [], pat => leadsWith [] pat
  | c :: t, pat => leadsWith (c :: t) pat || containsL t pat

/-- JavaScript String.includes. -/
def incl (s pat : String) : Bool := containsL s.data pat.data

/-- JavaScript String.endsWith. -/
def endsWithS (s pat : String) : Bool := leadsWith s.data.reverse pat.data.reverse

/-- JavaScript String.toLowerCase on ASCII input. -/
def strLower (s : String) : String := ⟨s.data.map Char.toLower⟩

/-- Remove leading and trailing whitespace, as JavaScript String.trim. -/
def trimWs (l : List Char) : List Char :=
  ((l.dropWhile isWs).reverse.dropWhile isWs).reverse

/-- Collapse every run of whitespace into a single space, as the JavaScript
replacement of the regex backslash-s-plus by one space. -/
def collapseWs : List Char → List Char
  | [] => []
  | c :: t =>
    let rest := collapseWs t
    if isWs c then
      match rest with
      | ' ' :: _ => rest
      | _ => ' ' :: rest
    else c :: rest

/-- ASCII digit test, the JavaScript regex class backslash-d. -/
def isDigit (c : Char) : Bool := '0' ≤ c && c ≤ '9'

/-- The list starts with the literal mb or gb. -/
def startsMbGb (l : List Char) : Bool :=
  leadsWith l ['m', 'b'] || leadsWith l ['g', 'b']

/-- A match of the size regex (digits, optional whitespace, mb or gb) begins at
the head position: it suffices to ask for one digit here, since any longer
digit run contains a match starting at its last digit. -/
def sizeAt : List Char → Bool
  | [] => false
  | c :: rest => isDigit c && startsMbGb (rest.dropWhile isWs)

/-- Does the predicate hold at some suffix position of the list. -/
def anyPos (p : List Char → Bool) : List Char → Bool
  | [] => p []
  | c :: t => p (c :: t) || anyPos p t

/-- Test of the JavaScript regex digits-whitespace-mb-or-gb used by the scorer. -/
def sizeRe (s : String) : Bool := anyPos sizeAt s.data

/-- After the digit run of the version regex: either a dot followed by a digit,
or one more digit and recurse. -/
def dotOrMore : List Char → Bool
  | '.' :: d :: _ => isDigit d
  | c :: t => isDigit c && dotOrMore t
  | [] => false

/-- Tail of a version-regex match after the leading letter v: one or more
digits, a dot, one or more digits. -/
def vTail : List Char → Bool
  | c :: t => isDigit c && dotOrMore t
  | [] => false

/-- A match of the version regex begins at the head position. -/
def versionAt : List Char → Bool
  | 'v' :: t => vTail t
  | _ => false

/-- Test of the JavaScript version regex v-digits-dot-digits used by the scorer. -/
def versionRe (s : String) : Bool := anyPos versionAt s.data

/-- Structural description of a DOM element as read by the deep-dive hunter
scorer: the raw innerText, textContent, href and className strings. -/
structure BtnEl where
  innerText : String
  textContent : String
  href : String
  className : String
deriving DecidableEq

/-- The normalized text the scorer computes: innerText or textContent,
lower-cased, whitespace-collapsed, trimmed. -/
def evalTxt (e : BtnEl) : String :=
  ⟨trimWs (collapseWs ((jsOr e.innerText (jsOr e.textContent "")).data.map Char.toLower))⟩

/-- The lower-cased href the scorer computes. -/
def evalHref (e : BtnEl) : String := strLower (jsOr e.href "")

/-- The lower-cased class string the scorer computes. -/
def evalCls (e : BtnEl) : String := strLower e.className

/-- Result of evaluateButton: the instant-disqualification branches return a
bare number, the normal path returns an object carrying the score. -/
inductive EvalRes where
  | num (n : Int)
  | scored (score : Int) (txt : String)
deriving DecidableEq

/-- The scorer of the deep-dive hunter (evaluateButton in the source):
instant disqualifiers first, then accumulated positive contributions. -/
def evaluateButton (e : BtnEl) : EvalRes :=
  let txt := evalTxt e
  let href := evalHref e
  let classes := evalCls e
  if incl txt "fast download" then EvalRes.num (-99999)
  else if incl txt "high speed" then EvalRes.num (-99999)
  else if incl txt "apkdone installer" then EvalRes.num (-99999)
  else if incl txt "play store" then EvalRes.num (-99999)
  else if incl txt "telegram" then EvalRes.num (-99999)
  else if incl classes "fast" then EvalRes.num (-99999)
  else
    EvalRes.scored
      ((if incl txt "download" then (10 : Int) else 0) +
       (if incl txt "apk" then 20 else 0) +
       (if incl txt "mod" then 15 else 0) +
       (if incl txt "original" then 15 else 0) +
       (if sizeRe txt then 50 else 0) +
       (if versionRe txt then 30 else 0) +
       (if incl href ".apk" then 100 else 0) +
       (if incl classes "active" then 5 else 0))
      txt

/-- The six instant-disqualification conditions of evaluateButton. -/
def disqualifiedBtn (e : BtnEl) : Bool :=
  incl (evalTxt e) "fast download" || incl (evalTxt e) "high speed" ||
  incl (evalTxt e) "apkdone installer" || incl (evalTxt e) "play store" ||
  incl (evalTxt e) "telegram" || incl (evalCls e) "fast"

/-- One step of the selection loop of the deep-dive hunter.  A disqualified
element returns a bare number from evaluateButton, so reading data.score
yields undefined and the comparison with maxScore is false: the accumulator
is unchanged. -/
def selectStep (acc : Option BtnEl × Int) (e : BtnEl) : Option BtnEl × Int :=
  match evaluateButton e with
  | EvalRes.num _ => acc
  | EvalRes.scored s _ => if acc.2 < s then (some e, s) else acc

/-- The selection loop over the scanned handles, starting from maxScore -1000. -/
def selectBest (els : List BtnEl) : Option BtnEl × Int :=
  els.foldl selectStep (none, -1000)

/-- The element the deep-dive hunter clicks: the best candidate, unless there
is none or its score is at most zero. -/
def clickedCandidate (els : List BtnEl) : Option BtnEl :=
  match selectBest els with
  | (none, _) => none
  | (some e, m) => if m ≤ 0 then none else some e

/-- The positive score signals of evaluateButton, one flag per contribution. -/
structure BtnSignals where
  hasDownload : Bool
  hasApk : Bool
  hasMod : Bool
  hasOriginal : Bool
  hasSize : Bool
  hasVersion : Bool
  hrefApk : Bool
  hasActive : Bool
deriving DecidableEq

/-- The signal profile of an element. -/
def signalsOf (e : BtnEl) : BtnSignals :=
  ⟨incl (evalTxt e) "download", incl (evalTxt e) "apk", incl (evalTxt e) "mod",
   incl (evalTxt e) "original", sizeRe (evalTxt e), versionRe (evalTxt e),
   incl (evalHref e) ".apk", incl (evalCls e) "active"⟩

/-- The accumulated score as a function of the signal profile, with the same
weights and the same order as evaluateButton. -/
def scoreOf (s : BtnSignals) : Int :=
  (if s.hasDownload then (10 : Int) else 0) +
  (if s.hasApk then 20 else 0) +
  (if s.hasMod then 15 else 0) +
  (if s.hasOriginal then 15 else 0) +
  (if s.hasSize then 50 else 0) +
  (if s.hasVersion then 30 else 0) +
  (if s.hrefApk then 100 else 0) +
  (if s.hasActive then 5 else 0)

/-- The numeric value the selection loop would read from an evaluation result. -/
def scoreVal : EvalRes → Int
  | EvalRes.num n => n
  | EvalRes.scored s _ => s

theorem disq_evaluates_num (e : BtnEl) (h : disqualifiedBtn e = true) :
    evaluateButton e = EvalRes.num (-99999) := by
  unfold disqualifiedBtn at h
  unfold evaluateButton
  cases h1 : incl (evalTxt e) "fast download" <;>
    cases h2 : incl (evalTxt e) "high speed" <;>
      cases h3 : incl (evalTxt e) "apkdone installer" <;>
        cases h4 : incl (evalTxt e) "play store" <;>
          cases h5 : incl (evalTxt e) "telegram" <;>
            cases h6 : incl (evalCls e) "fast" <;>
              simp_all

theorem evaluateButton_eq_score (e : BtnEl) (h : disqualifiedBtn e = false) :
    evaluateButton e = EvalRes.scored (scoreOf (signalsOf e)) (evalTxt e) := by
  unfold disqualifiedBtn at h
  simp only [Bool.or_eq_false_iff] at h
  obtain ⟨⟨⟨⟨⟨h1, h2⟩, h3⟩, h4⟩, h5⟩, h6⟩ := h
  unfold evaluateButton scoreOf signalsOf
  simp [h1, h2, h3, h4, h5, h6]

theorem selectFold_scored (els : List BtnEl) :
    ∀ (acc : Option BtnEl × Int),
      (∀ x, acc.1 = some x → ∃ s t, evaluateButton x = EvalRes.scored s t) →
      ∀ x, (List.foldl selectStep acc els).1 = some x →
        ∃ s t, evaluateButton x = EvalRes.scored s t := by
  induction els with
  | nil => intro acc hacc x hx; exact hacc x hx
  | cons e rest ih =>
    intro acc hacc x hx
    rw [List.foldl_cons] at hx
    refine ih (selectStep acc e) ?_ x hx
    intro y hy
    unfold selectStep at hy
    cases hev : evaluateButton e with
    | num n => rw [hev] at hy; exact hacc y hy
    | scored s t =>
      rw [hev] at hy
      by_cases hlt : acc.2 < s
      · simp only [if_pos hlt] at hy
        cases hy
        exact ⟨s, t, hev⟩
      · simp only [if_neg hlt] at hy
        exact hacc y hy

/-- The final-button predicate of the workflow hunter (Step 2 click): it
matches download-apk-with-size, fast-download, or download-mod texts, and the
first matching visible element is clicked. -/
def step2Hit (raw : String) : Bool :=
  let text := strLower raw
  (incl text "download apk" && incl text "mb") || incl text "fast download" ||
    incl text "download mod"

/-- The Step 2 click of the workflow hunter over the scanned element texts. -/
def step2Click (texts : List String) : Option String := texts.find? step2Hit

/-- A decoy button whose text names the bundled-installer trap phrase. -/
def c1DisqBtn : BtnEl := ⟨"Fast Download", "", "", ""⟩

/-- A button whose text holds the premium phrase next to strong positive signals. -/
def premiumBtn : BtnEl := ⟨"Premium Download APK 150 MB", "", "", ""⟩

/-- C1 counterexample: the Step 2 click of the workflow hunter clicks an
element whose normalized text contains the phrase fast download, and the
deep-dive scorer selects and clicks an element whose text contains premium,
so the claimed blanket disqualification fails on the code. -/
theorem c1_counterexample :
    step2Click ["Fast Download"] = some "Fast Download" ∧
    incl (strLower "Fast Download") "fast download" = true ∧
    clickedCandidate [premiumBtn] = some premiumBtn ∧
    incl (evalTxt premiumBtn) "premium" = true := by decide

/-- C1 amended: for the disqualifiers evaluateButton actually implements
(fast download, high speed, apkdone installer, play store, telegram, class
fast), a disqualified element is never the clicked candidate of the deep-dive
selection loop, regardless of positive signals. -/
theorem c1_amended_thm (els : List BtnEl) (e : BtnEl)
    (h : disqualifiedBtn e = true) : clickedCandidate els ≠ some e := by
  intro hc
  have hnum := disq_evaluates_num e h
  unfold clickedCandidate at hc
  cases hsel : selectBest els with
  | mk b m =>
    rw [hsel] at hc
    cases b with
    | none => exact Option.noConfusion hc
    | some x =>
      have hx : (List.foldl selectStep ((none : Option BtnEl), (-1000 : Int)) els).1
          = some x := by
        have hdef : selectBest els = List.foldl selectStep (none, -1000) els := rfl
        rw [← hdef, hsel]
      obtain ⟨s, t, hst⟩ := selectFold_scored els (none, -1000)
        (by intro y hy; exact Option.noConfusion hy) x hx
      have hc2 : (if m ≤ 0 then (none : Option BtnEl) else some x) = some e := hc
      by_cases hm : m ≤ 0
      · rw [if_pos hm] at hc2; exact Option.noConfusion hc2
      · rw [if_neg hm] at hc2
        injection hc2 with hxe
        rw [hxe, hnum] at hst
        exact EvalRes.noConfusion hst

/-- C1 witness: a concrete disqualified element is indeed never clicked. -/
theorem c1_witness :
    disqualifiedBtn c1DisqBtn = true ∧ clickedCandidate [c1DisqBtn] ≠ some c1DisqBtn :=
  ⟨by decide, c1_amended_thm [c1DisqBtn] c1DisqBtn (by decide)⟩

/-- A disqualified text carrying the size pattern. -/
def c7FastSize : BtnEl := ⟨"fast download 150 mb", "", "", ""⟩

/-- The same disqualified text without the size pattern. -/
def c7FastPlain : BtnEl := ⟨"fast download", "", "", ""⟩

/-- C7 counterexample: on instantly disqualified texts both scores are the
same large negative number, so a size pattern does not make the score
strictly greater even though every other signal agrees. -/
theorem c7_counterexample :
    sizeRe (evalTxt c7FastSize) = true ∧
    signalsOf c7FastPlain = { signalsOf c7FastSize with hasSize := false } ∧
    ¬ scoreVal (evaluateButton c7FastPlain) < scoreVal (evaluateButton c7FastSize) := by
  decide

/-- C7 amended: when neither element is instantly disqualified, a text with
the size pattern scores strictly higher than the equivalent text without it,
all other signals being equal. -/
theorem c7_amended_thm (e eNo : BtnEl)
    (hd : disqualifiedBtn e = false) (hdNo : disqualifiedBtn eNo = false)
    (hs : (signalsOf e).hasSize = true)
    (heq : signalsOf eNo = { signalsOf e with hasSize := false }) :
    scoreVal (evaluateButton eNo) < scoreVal (evaluateButton e) := by
  rw [evaluateButton_eq_score e hd, evaluateButton_eq_score eNo hdNo]
  show scoreOf (signalsOf eNo) < scoreOf (signalsOf e)
  rw [heq]
  generalize signalsOf e = S at hs ⊢
  obtain ⟨d, a, m, o, sz, v, hr, ac⟩ := S
  have hsz : sz = true := hs
  subst hsz
  cases d <;> cases a <;> cases m <;> cases o <;> cases v <;> cases hr <;>
    cases ac <;> decide

/-- A qualifying size-carrying button text. -/
def c7SizeBtn : BtnEl := ⟨"Download APK (150 MB)", "", "", ""⟩

/-- The same button text without the size pattern. -/
def c7PlainBtn : BtnEl := ⟨"Download APK", "", "", ""⟩

/-- C7 witness: the amended strict inequality at concrete texts. -/
theorem c7_witness :
    scoreVal (evaluateButton c7PlainBtn) < scoreVal (evaluateButton c7SizeBtn) :=
  c7_amended_thm c7SizeBtn c7PlainBtn (by decide) (by decide) (by decide) (by decide)

/-- Structural description of an element scanned by the basic hunter: the
visibility outcome of the geometry test, innerText and value. -/
structure El0 where
  visible : Bool
  innerText : String
  value : String
deriving DecidableEq

/-- The text the basic hunter scan computes: innerText or value or empty,
lower-cased and trimmed. -/
def el0Txt (e : El0) : String :=
  ⟨trimWs (strLower (jsOr e.innerText (jsOr e.value ""))).data⟩

/-- The waiting-related negative keywords of the basic hunter element filter. -/
def part000Waitish (t : String) : Bool :=
  incl t "generating" || incl t "please wait" || incl t "seconds"

/-- The generic bad keywords of the basic hunter element filter. -/
def part000Bad (t : String) : Bool :=
  incl t "premium" || incl t "fast" || incl t "manager" || incl t "advertisement"

/-- The statistics-text keywords of the basic hunter element filter. -/
def part000Stats (t : String) : Bool :=
  incl t "total downloads" || incl t "viewed"

/-- The positive matching arm of the basic hunter element filter. -/
def part000Pos (t : String) : Bool :=
  t == "download" || t == "download apk" || t == "direct download" ||
  incl t "click to download" ||
  (incl t "download" && (incl t "mb" || incl t "apk" || incl t "file"))

/-- The per-element acceptance test of the basic hunter scan: visible, text of
length at least 3, none of the negative keyword groups, one positive arm. -/
def part000Accept (e : El0) : Bool :=
  e.visible && !(decide ((el0Txt e).length < 3)) &&
  !(part000Waitish (el0Txt e)) && !(part000Bad (el0Txt e)) &&
  !(part000Stats (el0Txt e)) && part000Pos (el0Txt e)

/-- The candidate of one page scan of the basic hunter: the first accepted
element in DOM order.  The scan clicks this element inside the page before
reporting its text. -/
def part000Candidate (els : List El0) : Option El0 := els.find? part000Accept

/-- The text key the basic hunter records for a clicked element: innerText or
value or the literal button, cut to 50 characters, newlines made spaces.
The page URL is not part of the key. -/
def clickKey (e : El0) : String :=
  ⟨((jsOr (jsOr e.innerText e.value) "button").data.take 50).map
    (fun c => if c == '\n' then ' ' else c)⟩

/-- The expiry sweep over the clicked-buttons map: an entry is deleted once
strictly more than 15000 milliseconds have passed since its timestamp. -/
def expireClicked (m : List (String × Nat)) (now : Nat) : List (String × Nat) :=
  m.filter (fun kv => decide (now - kv.2 ≤ 15000))

/-- Membership test of the clicked-buttons map. -/
def hasKey (m : List (String × Nat)) (k : String) : Bool :=
  m.any (fun kv => kv.1 == k)

/-- One pass of the basic hunter over the open pages: each page scan clicks
its candidate unconditionally inside the page; the key is recorded (and the
pass stops) only when no record for it exists yet; with an existing record
the pass moves on to the next page, the click having happened regardless.
Returns the clicked keys in order together with the updated map. -/
def scanPages : List (List El0) → List (String × Nat) → Nat →
    List String × List (String × Nat)
  | [], m, _ => ([], m)
  | p :: rest, m, now =>
    match part000Candidate p with
    | none => scanPages rest m now
    | some e =>
      let k := clickKey e
      if hasKey m k then
        let r := scanPages rest m now
        (k :: r.1, r.2)
      else ([k], (k, now) :: m)

/-- One iteration of the hunt loop around the page scans: the expiry sweep
runs first, then the pages are scanned in order. -/
def huntScan (pages : List (List El0)) (m : List (String × Nat)) (now : Nat) :
    List String × List (String × Nat) :=
  scanPages pages (expireClicked m now) now

/-- The ready element used in the click bookkeeping counterexample. -/
def c2ReadyEl : El0 := ⟨true, "Click to download", ""⟩

/-- C2 counterexample: with an unexpired record for the very key of the found
candidate (age 1000 ms, well inside the 15000 ms cooldown), the scan still
issues the in-page click on that element, so clicks are not suppressed by
unexpired records, and the key carries no page URL. -/
theorem c2_counterexample :
    (huntScan [[c2ReadyEl]] [("Click to download", 0)] 1000).1
      = ["Click to download"] ∧
    expireClicked [("Click to download", 0)] 1000
      = [("Click to download", 0)] := by decide

theorem scanPages_cons_some (p : List El0) (rest : List (List El0))
    (m : List (String × Nat)) (now : Nat) (e : El0)
    (hcand : part000Candidate p = some e) :
    scanPages (p :: rest) m now =
      if hasKey m (clickKey e) then
        (clickKey e :: (scanPages rest m now).1, (scanPages rest m now).2)
      else ([clickKey e], (clickKey e, now) :: m) := by
  conv_lhs => rw [scanPages]
  rw [hcand]

/-- C2 amended: the expiry sweep keeps exactly the entries aged at most 15000
milliseconds; whenever the first page has a candidate its in-page click is
issued regardless of the map; and a fresh key (no unexpired record) is
recorded with the current timestamp while the pass stops at that page. -/
theorem c2_amended_thm (m : List (String × Nat)) (now t : Nat) (k : String)
    (p : List El0) (rest : List (List El0)) (e : El0) :
    ((k, t) ∈ expireClicked m now ↔ (k, t) ∈ m ∧ now - t ≤ 15000) ∧
    (part000Candidate p = some e →
      (huntScan (p :: rest) m now).1.head? = some (clickKey e) ∧
      (hasKey (expireClicked m now) (clickKey e) = false →
        huntScan (p :: rest) m now
          = ([clickKey e], (clickKey e, now) :: expireClicked m now))) := by
  constructor
  · unfold expireClicked
    rw [List.mem_filter]
    simp
  · intro hcand
    unfold huntScan
    rw [scanPages_cons_some p rest (expireClicked m now) now e hcand]
    constructor
    · by_cases hk : hasKey (expireClicked m now) (clickKey e) = true
      · rw [if_pos hk]; rfl
      · rw [if_neg hk]; rfl
    · intro hfresh
      rw [if_neg (by rw [hfresh]; exact Bool.false_ne_true)]

/-- C2 witness: the amended statement at a concrete map, key and page. -/
theorem c2_witness :
    (("old", 0) ∈ expireClicked [("old", 0)] 20000 ↔
      ("old", 0) ∈ [("old", 0)] ∧ 20000 - 0 ≤ 15000) ∧
    ((huntScan [[c2ReadyEl]] [] 42).1.head? = some (clickKey c2ReadyEl) ∧
      huntScan [[c2ReadyEl]] [] 42
        = ([clickKey c2ReadyEl], (clickKey c2ReadyEl, 42) :: expireClicked [] 42)) :=
  ⟨(c2_amended_thm [("old", 0)] 20000 0 "old" [c2ReadyEl] [] c2ReadyEl).1,
   ((c2_amended_thm [] 42 0 "x" [c2ReadyEl] [] c2ReadyEl).2 (by decide)).1,
   ((c2_amended_thm [] 42 0 "x" [c2ReadyEl] [] c2ReadyEl).2 (by decide)).2 (by decide)⟩

/-- The generating-phase element of the waiting-classifier counterexample. -/
def c3GenEl : El0 := ⟨true, "Generating download link... (5s)", ""⟩

/-- The ready element of the waiting-classifier counterexample. -/
def c3ReadyEl : El0 := ⟨true, "Click to download", ""⟩

/-- C3 counterexample: a page whose text contains generating together with
download still yields a candidate in the same scan (the other element), so the
scan is not short-circuited to a page-wide waiting state. -/
theorem c3_counterexample :
    part000Candidate [c3GenEl, c3ReadyEl] = some c3ReadyEl ∧
    incl (el0Txt c3GenEl) "generating" = true ∧
    incl (el0Txt c3GenEl) "download" = true := by decide

/-- C3 amended: the waiting filter acts per element: an element whose own text
contains generating, please wait or seconds (with or without download or link
nearby) is never the candidate, but other elements of the same page may still
be returned in the same scan. -/
theorem c3_amended_thm (els : List El0) (e : El0)
    (h : part000Waitish (el0Txt e) = true) :
    part000Candidate els ≠ some e := by
  intro hc
  have hacc : part000Accept e = true := List.find?_some hc
  unfold part000Accept at hacc
  simp only [Bool.and_eq_true, Bool.not_eq_true'] at hacc
  have hw : part000Waitish (el0Txt e) = false := hacc.1.1.1.2
  rw [h] at hw
  exact Bool.noConfusion hw

/-- C3 witness: a concrete generating element is never the candidate. -/
theorem c3_witness :
    part000Waitish (el0Txt c3GenEl) = true ∧
    part000Candidate [c3GenEl] ≠ some c3GenEl :=
  ⟨by decide, c3_amended_thm [c3GenEl] c3GenEl (by decide)⟩

/-- A directory entry as seen by one poll: file name and current size. -/
structure FileEnt where
  name : String
  size : Nat
deriving DecidableEq

/-- Outcome of one poll of the download directory in the basic hunter. -/
inductive FsCheck where
  | found (f : FileEnt)
  | waitPart
  | nothing
deriving DecidableEq

/-- One poll of the hunt loop file check: the first apk-named file is read
first, and reported as soon as its size is positive; only otherwise is the
crdownload marker consulted to keep waiting. -/
def huntFileCheck (files : List FileEnt) : FsCheck :=
  let apk := files.find? (fun f => endsWithS f.name ".apk")
  let prt := files.find? (fun f => endsWithS f.name ".crdownload")
  match apk with
  | some a =>
    if 0 < a.size then FsCheck.found a
    else
      match prt with
      | some _ => FsCheck.waitPart
      | none => FsCheck.nothing
  | none =>
    match prt with
    | some _ => FsCheck.waitPart
    | none => FsCheck.nothing

/-- C4 counterexample: a poll seeing a nonzero apk file next to an in-progress
crdownload sibling still reports the artifact complete, and a single poll
suffices, so the no-sibling and two-poll-stability requirements fail. -/
theorem c4_counterexample :
    huntFileCheck [⟨"a.apk", 5⟩, ⟨"b.apk.crdownload", 100⟩]
      = FsCheck.found ⟨"a.apk", 5⟩ ∧
    endsWithS "b.apk.crdownload" ".crdownload" = true := by decide

/-- C4 amended: whatever the poll reports as found is an apk-named member of
the directory listing with strictly positive size; in particular a zero-size
artifact is never reported.  No stability across polls and no absence of
crdownload siblings is guaranteed. -/
theorem c4_amended_thm (files : List FileEnt) (f : FileEnt)
    (h : huntFileCheck files = FsCheck.found f) :
    0 < f.size ∧ endsWithS f.name ".apk" = true ∧ f ∈ files := by
  unfold huntFileCheck at h
  dsimp only at h
  split at h
  next a heq =>
    split at h
    next hsz =>
      injection h with haf
      subst haf
      refine ⟨hsz, ?_, List.mem_of_find?_eq_some heq⟩
      have hp := List.find?_some heq
      simpa using hp
    next hsz =>
      split at h
      · exact FsCheck.noConfusion h
      · exact FsCheck.noConfusion h
  next heq =>
    split at h
    · exact FsCheck.noConfusion h
    · exact FsCheck.noConfusion h

/-- C4 witness: the amended guarantees at a concrete directory listing. -/
theorem c4_witness :
    0 < (5 : Nat) ∧ endsWithS "a.apk" ".apk" = true ∧
      (⟨"a.apk", 5⟩ : FileEnt) ∈ [(⟨"a.apk", 5⟩ : FileEnt)] :=
  c4_amended_thm [⟨"a.apk", 5⟩] ⟨"a.apk", 5⟩ (by decide)

/-- A network response as seen by the interception layer: url, content type,
content disposition and the parsed content length (zero when absent). -/
structure Resp where
  url : String
  contentType : String
  contentDisposition : String
  contentLength : Nat
deriving DecidableEq

/-- The artifact-signature test of the workflow hunter response listener:
apk url suffix or exact android package content type, excluding the bundled
installer url patterns. -/
def scrapeMatch (r : Resp) : Bool :=
  (endsWithS r.url ".apk" || r.contentType == "application/vnd.android.package-archive")
  && !(incl r.url "APKDone_") && !(incl r.url "apkdone_mod_apkdone")

/-- One response event of the workflow hunter listener: the candidate pair
(url, length) is replaced only by a matching response of strictly larger
parsed content length. -/
def scrapeStep (st : Option String × Nat) (r : Resp) : Option String × Nat :=
  if scrapeMatch r then
    if st.2 < r.contentLength then (some r.url, r.contentLength) else st
  else st

/-- The listener state after a sequence of responses, from the initial state
(no url, length zero). -/
def scrapeScan (rs : List Resp) : Option String × Nat :=
  rs.foldl scrapeStep (none, 0)

/-- The largest content length among matching responses, written from the
retention sentence of the design notes for comparison with the code. -/
def maxMatchedLen (rs : List Resp) : Nat :=
  rs.foldl (fun a r => if scrapeMatch r then max a r.contentLength else a) 0

/-- The artifact-signature test of the deep-dive hunter response listener:
android package or octet-stream content type AND apk name evidence, excluding
the analytics url. -/
def part001Match (r : Resp) : Bool :=
  (incl r.contentType "application/vnd.android.package-archive" ||
    incl r.contentType "application/octet-stream") &&
  (endsWithS (strLower r.url) ".apk" || incl (strLower r.contentDisposition) ".apk") &&
  !(incl r.url "google-analytics")

/-- One response event of the deep-dive hunter listener: every matching
response overwrites the remembered url, with no length comparison. -/
def part001Step (st : Option String) (r : Resp) : Option String :=
  if part001Match r then some r.url else st

/-- The deep-dive listener state after a sequence of responses. -/
def part001Scan (rs : List Resp) : Option String := rs.foldl part001Step none

/-- A large matching response. -/
def bigResp : Resp :=
  ⟨"https://cdn.example.com/big.apk", "application/vnd.android.package-archive", "", 200⟩

/-- A small matching response arriving later. -/
def smallResp : Resp :=
  ⟨"https://cdn.example.com/small.apk", "application/vnd.android.package-archive", "", 50⟩

/-- C5 counterexample: in the deep-dive listener a later, strictly smaller
matching response replaces the larger one, so the retained candidate is not
the match with the largest content length. -/
theorem c5_counterexample :
    part001Scan [bigResp, smallResp] = some "https://cdn.example.com/small.apk" ∧
    part001Match bigResp = true ∧ part001Match smallResp = true ∧
    smallResp.contentLength < bigResp.contentLength := by decide

theorem scrapeStep_snd (st : Option String × Nat) (r : Resp) :
    (scrapeStep st r).2 = if scrapeMatch r then max st.2 r.contentLength
      else st.2 := by
  unfold scrapeStep
  by_cases hm : scrapeMatch r = true
  · rw [if_pos hm, if_pos hm]
    by_cases hl : st.2 < r.contentLength
    · rw [if_pos hl]
      exact (Nat.max_eq_right (Nat.le_of_lt hl)).symm
    · rw [if_neg hl]
      exact (Nat.max_eq_left (Nat.le_of_not_lt hl)).symm
  · rw [if_neg hm, if_neg hm]

theorem scrapeScan_snd_aux (rs : List Resp) :
    ∀ (st : Option String × Nat),
      (rs.foldl scrapeStep st).2 =
        rs.foldl (fun a r => if scrapeMatch r then max a r.contentLength else a) st.2 := by
  induction rs with
  | nil => intro st; rfl
  | cons r rest ih =>
    intro st
    rw [List.foldl_cons, List.foldl_cons, ih (scrapeStep st r), scrapeStep_snd]

theorem scrapeStep_cases (st : Option String × Nat) (r : Resp) :
    (scrapeMatch r = true ∧ st.2 < r.contentLength ∧
      scrapeStep st r = (some r.url, r.contentLength)) ∨
    scrapeStep st r = st := by
  unfold scrapeStep
  by_cases hm : scrapeMatch r = true
  · rw [if_pos hm]
    by_cases hl : st.2 < r.contentLength
    · rw [if_pos hl]; exact Or.inl ⟨hm, hl, rfl⟩
    · rw [if_neg hl]; exact Or.inr rfl
  · rw [if_neg hm]; exact Or.inr rfl

theorem scrapeScan_fst_aux (rs : List Resp) :
    ∀ (st : Option String × Nat) (u : String),
      (rs.foldl scrapeStep st).1 = some u →
      (st.1 = some u ∧ (rs.foldl scrapeStep st).2 = st.2) ∨
      ∃ r, r ∈ rs ∧ scrapeMatch r = true ∧ r.url = u ∧
        (rs.foldl scrapeStep st).2 = r.contentLength ∧ 0 < r.contentLength := by
  induction rs with
  | nil => intro st u hu; exact Or.inl ⟨hu, rfl⟩
  | cons r rest ih =>
    intro st u hu
    rw [List.foldl_cons] at hu ⊢
    rcases ih (scrapeStep st r) u hu with ⟨h1, h2⟩ | ⟨r2, hmem, hm, hurl, hlen, hpos⟩
    · rcases scrapeStep_cases st r with ⟨hm, hl, heq⟩ | heq
      · rw [heq] at h1 h2 ⊢
        injection h1 with h1e
        exact Or.inr ⟨r, List.mem_cons_self r rest, hm, h1e, h2,
          Nat.lt_of_le_of_lt (Nat.zero_le st.2) hl⟩
      · rw [heq] at h1 h2 ⊢
        exact Or.inl ⟨h1, h2⟩
    · exact Or.inr ⟨r2, List.mem_cons_of_mem r hmem, hm, hurl, hlen, hpos⟩

/-- C5 amended: the workflow hunter listener does maintain the claimed
invariant: the retained length is the largest matched content length, a
replacement only happens for a matching response of strictly larger length,
and a retained url always belongs to a matching response of positive length
equal to the retained length.  The deep-dive listener does not compare
lengths, as the counterexample shows. -/
theorem c5_amended_thm (rs : List Resp) (st : Option String × Nat)
    (r : Resp) (u : String) :
    ((scrapeScan rs).2 = maxMatchedLen rs) ∧
    (scrapeStep st r ≠ st → scrapeMatch r = true ∧ st.2 < r.contentLength ∧
      scrapeStep st r = (some r.url, r.contentLength)) ∧
    ((scrapeScan rs).1 = some u →
      ∃ rr, rr ∈ rs ∧ scrapeMatch rr = true ∧ rr.url = u ∧
        rr.contentLength = (scrapeScan rs).2 ∧ 0 < rr.contentLength) := by
  refine ⟨scrapeScan_snd_aux rs (none, 0), ?_, ?_⟩
  · intro hne
    unfold scrapeStep at hne ⊢
    by_cases hm : scrapeMatch r = true
    · rw [if_pos hm] at hne ⊢
      by_cases hl : st.2 < r.contentLength
      · rw [if_pos hl] at hne ⊢
        exact ⟨hm, hl, rfl⟩
      · rw [if_neg hl] at hne
        exact absurd rfl hne
    · rw [if_neg hm] at hne
      exact absurd rfl hne
  · intro hu
    rcases scrapeScan_fst_aux rs (none, 0) u hu with ⟨h1, _⟩ | ⟨rr, hmem, hm, hurl, hlen, hpos⟩
    · exact Option.noConfusion h1
    · exact ⟨rr, hmem, hm, hurl, hlen.symm, hpos⟩

/-- C5 witness: the amended invariant at a concrete response sequence. -/
theorem c5_witness :
    (scrapeScan [bigResp, smallResp]).2 = maxMatchedLen [bigResp, smallResp] ∧
    ∃ rr, rr ∈ [bigResp, smallResp] ∧ scrapeMatch rr = true ∧
      rr.url = "https://cdn.example.com/big.apk" ∧
      rr.contentLength = (scrapeScan [bigResp, smallResp]).2 ∧ 0 < rr.contentLength :=
  ⟨(c5_amended_thm [bigResp, smallResp] (none, 0) bigResp "x").1,
   (c5_amended_thm [bigResp, smallResp] (none, 0) bigResp
      "https://cdn.example.com/big.apk").2.2 (by decide)⟩

/-- An HTTP response head: status code and optional location header. -/
structure HttpResp where
  status : Nat
  location : Option String
deriving DecidableEq

/-- What a downloader does with one response. -/
inductive DlAct where
  | refetch (url : String)
  | pipeToFile
  | reject (code : Nat)
deriving DecidableEq

/-- One response step of the deep-dive native downloader (downloadFile): a 301
or 302 answer restarts the download against the location header target (the
source reads the header without a presence check, modelled here as the empty
string when absent); any other non-200 status rejects; 200 pipes the body. -/
def downloadFileStep (r : HttpResp) : DlAct :=
  if r.status == 301 || r.status == 302 then DlAct.refetch (r.location.getD "")
  else if !(r.status == 200) then DlAct.reject r.status
  else DlAct.pipeToFile

/-- One response step of the workflow hunter direct downloader
(attemptDownload inside downloadDirect): a 200 pipes the body; a 3xx with a
location header calls attemptDownload with the location as argument, but
attemptDownload declares no parameter and closes over the enclosing url, so
the re-issued fetch targets the original url again; other statuses reject. -/
def attemptStep (url : String) (r : HttpResp) : DlAct :=
  if r.status == 200 then DlAct.pipeToFile
  else if (decide (300 ≤ r.status) && decide (r.status < 400)) && r.location.isSome then
    DlAct.refetch url
  else DlAct.reject r.status

/-- C6: on a concrete 302 response the workflow hunter downloader re-issues
the fetch against the original url, not the redirect target named in the
location header, while the deep-dive downloader follows the target; in both
downloaders the redirect response itself is not piped to the output file. -/
theorem c6_bug_eval :
    attemptStep "https://gateway.example/dl" ⟨302, some "https://cdn.example/file.apk"⟩
      = DlAct.refetch "https://gateway.example/dl" ∧
    attemptStep "https://gateway.example/dl" ⟨302, some "https://cdn.example/file.apk"⟩
      ≠ DlAct.refetch "https://cdn.example/file.apk" ∧
    attemptStep "https://gateway.example/dl" ⟨302, some "https://cdn.example/file.apk"⟩
      ≠ DlAct.pipeToFile ∧
    downloadFileStep ⟨302, some "https://cdn.example/file.apk"⟩
      = DlAct.refetch "https://cdn.example/file.apk" ∧
    downloadFileStep ⟨302, some "https://cdn.example/file.apk"⟩ ≠ DlAct.pipeToFile := by
  decide

/-- The final size gate of the deep-dive hunter: a downloaded artifact below
one mebibyte throws, failing the whole run. -/
def part001FinalCheck (size : Nat) : Except String Unit :=
  if size < 1024 * 1024 then
    Except.error ("Downloaded file is too small (" ++ toString size ++
      " bytes). Likely an installer stub.")
  else Except.ok ()

/-- The post-download size verification of the workflow hunter scrape path:
both conditions only emit warnings and never fail the run. -/
structure SizeVerify where
  warnSmall : Bool
  warnDiff : Bool
  fatal : Bool
deriving DecidableEq

/-- The two warning conditions of downloadWithScrape after the download:
below 100000000 bytes, and absolute deviation from the expected length beyond
1000000 bytes when an expectation exists; nothing is fatal. -/
def scrapeVerify (size expected : Nat) : SizeVerify :=
  { warnSmall := decide (size < 100000000),
    warnDiff := decide (0 < expected) &&
      decide (1000000 < ((size : Int) - (expected : Int)).natAbs),
    fatal := false }

/-- C8 counterexample: in the deep-dive hunter a completed artifact of 500000
bytes is not returned with a warning: the final check throws and the run
fails, so the implausibly-small condition is fatal there. -/
theorem c8_counterexample :
    part001FinalCheck 500000
      = Except.error "Downloaded file is too small (500000 bytes). Likely an installer stub." := by
  rfl

/-- C8 amended: in the workflow hunter scrape path the size verification is
warning-only (never fatal) and the artifact is kept; in the deep-dive hunter
an artifact of at least one mebibyte passes, while a smaller one throws. -/
theorem c8_amended_thm (size expected : Nat) :
    (scrapeVerify size expected).fatal = false ∧
    (1024 * 1024 ≤ size → part001FinalCheck size = Except.ok ()) ∧
    (size < 1024 * 1024 → part001FinalCheck size ≠ Except.ok ()) := by
  refine ⟨rfl, ?_, ?_⟩
  · intro hge
    unfold part001FinalCheck
    rw [if_neg (by omega)]
  · intro hlt
    unfold part001FinalCheck
    rw [if_pos hlt]
    exact Except.noConfusion

/-- Code-unit comparison of character lists, as the default JavaScript array
sort comparator on ASCII strings. -/
def charsLe : List Char → List Char → Bool
  | [], _ => true
  | _ :: _, [] => false
  | x :: xs, y :: ys => if x < y then true else if y < x then false else charsLe xs ys

/-- String order used to sort the payload keys. -/
def strLe (a b : String) : Bool := charsLe a.data b.data

/-- Insertion into a key-sorted association list. -/
def insertKV (p : String × String) : List (String × String) → List (String × String)
  | [] => [p]
  | q :: rest => if strLe p.1 q.1 then p :: q :: rest else q :: insertKV p rest

/-- Insertion sort of the payload entries by key, as Object.keys(data).sort(). -/
def sortKVs : List (String × String) → List (String × String)
  | [] => []
  | p :: rest => insertKV p (sortKVs rest)

/-- The salt appended to the signed message. -/
def SALT_KEY : String := "ORION_OMEGA_PROTOCOL_X9_SECURE_HASH_V1"

/-- The message the relay hashes: the sorted key:value pairs joined with a
vertical bar, then the salt appended. -/
def sigMessage (data : List (String × String)) : String :=
  String.intercalate "|" ((sortKVs data).map (fun kv => kv.1 ++ ":" ++ kv.2)) ++ SALT_KEY

/-- Is the rate-limit entry still visible at the given time: the store keeps a
key until its expiry time, 86400 seconds after it was put. -/
def kvActive (kv : Option Nat) (now : Nat) : Bool :=
  match kv with
  | some exp => decide (now < exp)
  | none => false

/-- Outcome of one POST to the relay: HTTP status, whether the body is the
success acknowledgment, whether the payload was forwarded to the upstream
record-keeping endpoint, and the rate-limit entry afterwards. -/
structure RelayOut where
  status : Nat
  ok : Bool
  forwarded : Bool
  kvAfter : Option Nat
deriving DecidableEq

/-- The POST branch of the relay worker, parameterized by the hex digest
function (the external SHA-256 primitive).  The rate-limit check runs first
when a store is bound, and the 24-hour lock is put before the signature is
validated; a digest mismatch answers 403 without forwarding; a match forwards
the payload and answers with the success acknowledgment when the upstream
accepts, or 500 when it does not. -/
def handlePost (sha : String → String) (hasStore : Bool) (kv : Option Nat)
    (now : Nat) (data : List (String × String)) (sig : String)
    (upstreamOk : Bool) : RelayOut :=
  if hasStore && kvActive kv now then
    { status := 429, ok := false, forwarded := false, kvAfter := kv }
  else
    let kv2 := if hasStore then some (now + 86400) else kv
    if sha (sigMessage data) ≠ sig then
      { status := 403, ok := false, forwarded := false, kvAfter := kv2 }
    else if upstreamOk then
      { status := 200, ok := true, forwarded := true, kvAfter := kv2 }
    else
      { status := 500, ok := false, forwarded := true, kvAfter := kv2 }

/-- C9: for a caller that is not rate-limited, a digest mismatch on the
salted, sorted-key message answers 403 and nothing is filed upstream, while a
matching digest forwards the payload and, when the upstream accepts, answers
200 with the success acknowledgment. -/
theorem c9_relay (sha : String → String) (hasStore : Bool) (kv : Option Nat)
    (now : Nat) (data : List (String × String)) (sig : String) (up : Bool)
    (hfree : (hasStore && kvActive kv now) = false) :
    (sha (sigMessage data) ≠ sig →
      (handlePost sha hasStore kv now data sig up).status = 403 ∧
      (handlePost sha hasStore kv now data sig up).forwarded = false) ∧
    (sha (sigMessage data) = sig →
      (handlePost sha hasStore kv now data sig up).forwarded = true ∧
      (up = true →
        (handlePost sha hasStore kv now data sig up).status = 200 ∧
        (handlePost sha hasStore kv now data sig up).ok = true)) := by
  have hfree2 : ¬ ((hasStore && kvActive kv now) = true) := by
    rw [hfree]; exact Bool.false_ne_true
  constructor
  · intro hne
    unfold handlePost
    rw [if_neg hfree2]
    dsimp only
    rw [if_pos hne]
    exact ⟨rfl, rfl⟩
  · intro heq
    unfold handlePost
    rw [if_neg hfree2]
    dsimp only
    rw [if_neg (show ¬ sha (sigMessage data) ≠ sig from fun hne => hne heq)]
    by_cases hup : up = true
    · rw [if_pos hup]
      exact ⟨rfl, fun _ => ⟨rfl, rfl⟩⟩
    · rw [if_neg hup]
      exact ⟨rfl, fun hup2 => absurd hup2 hup⟩

/-- C9 witness: both branches of the contract at concrete requests, with a
constant digest function. -/
theorem c9_witness :
    ((handlePost (fun _ => "aa") true none 5 [("score", "10")] "zz" true).status = 403 ∧
      (handlePost (fun _ => "aa") true none 5 [("score", "10")] "zz" true).forwarded
        = false) ∧
    ((handlePost (fun _ => "aa") true none 5 [("score", "10")] "aa" true).forwarded
        = true ∧
      (handlePost (fun _ => "aa") true none 5 [("score", "10")] "aa" true).status = 200) :=
  ⟨(c9_relay (fun _ => "aa") true none 5 [("score", "10")] "zz" true (by decide)).1
      (by decide),
   ((c9_relay (fun _ => "aa") true none 5 [("score", "10")] "aa" true (by decide)).2
      rfl).1,
   (((c9_relay (fun _ => "aa") true none 5 [("score", "10")] "aa" true (by decide)).2
      rfl).2 rfl).1⟩

/-- C10: with a bound store and no existing entry, a POST whose signature
fails validation still answers 403 yet stores the 24-hour lock, so any later
POST from the same caller within the window, even a correctly signed one, is
answered 429 and is not forwarded. -/
theorem c10_relay (sha : String → String) (now : Nat)
    (data : List (String × String)) (sig : String) (up : Bool)
    (hbad : sha (sigMessage data) ≠ sig) :
    (handlePost sha true none now data sig up).status = 403 ∧
    (handlePost sha true none now data sig up).kvAfter = some (now + 86400) ∧
    (∀ (now2 : Nat) (data2 : List (String × String)) (sig2 : String) (up2 : Bool),
      now2 < now + 86400 →
      (handlePost sha true (handlePost sha true none now data sig up).kvAfter
          now2 data2 sig2 up2).status = 429 ∧
      (handlePost sha true (handlePost sha true none now data sig up).kvAfter
          now2 data2 sig2 up2).forwarded = false) := by
  have h1 : handlePost sha true none now data sig up =
      { status := 403, ok := false, forwarded := false, kvAfter := some (now + 86400) } := by
    unfold handlePost
    rw [if_neg (show ¬ ((true && kvActive none now) = true) by unfold kvActive; simp)]
    dsimp only
    rw [if_pos hbad]
    rfl
  refine ⟨by rw [h1], by rw [h1], ?_⟩
  intro now2 data2 sig2 up2 hlt
  rw [h1]
  unfold handlePost
  have hact : (true && kvActive (some (now + 86400)) now2) = true := by
    unfold kvActive
    simp [hlt]
  rw [if_pos hact]
  exact ⟨rfl, rfl⟩

/-- C10 witness: a concretely mis-signed first request locks out a later,
correctly signed request inside the window; the digest of the second request
does match its signature. -/
theorem c10_witness :
    ((fun _ : String => "aa") (sigMessage [("score", "10")]) = "aa") ∧
    (handlePost (fun _ => "aa") true none 5 [("score", "10")] "zz" true).status = 403 ∧
    (handlePost (fun _ => "aa") true
      (handlePost (fun _ => "aa") true none 5 [("score", "10")] "zz" true).kvAfter
      100 [("score", "10")] "aa" true).status = 429 :=
  ⟨rfl,
   (c10_relay (fun _ => "aa") 5 [("score", "10")] "zz" true (by decide)).1,
   ((c10_relay (fun _ => "aa") 5 [("score", "10")] "zz" true (by decide)).2.2
      100 [("score", "10")] "aa" true (by decide)).1⟩

/-- C8 witness: the amended behavior at concrete sizes. -/
theorem c8_witness :
    (scrapeVerify 500000 0).fatal = false ∧
    part001FinalCheck 2097152 = Except.ok () ∧
    part001FinalCheck 1000 ≠ Except.ok () :=
  ⟨(c8_amended_thm 500000 0).1,
   (c8_amended_thm 2097152 0).2.1 (by decide),
   (c8_amended_thm 1000 0).2.2 (by decide)⟩
